import Mathlib

/-!
Shallow embedding of the response-parsing core of `src/backend/main.py`
(FastAPI service generating PRDs and API docs from an LLM completion).

Text is modelled as `List Char` (Python strings index by code point).
Each Python regex used by the source is embedded by its operational
semantics on the concrete patterns of the source:

  - the section regexes are of the form
    `HEADING(.*?)(?=T1|T2|...)` with `re.DOTALL`: the match, when it
    exists, starts at the leftmost occurrence of the heading literal and
    the lazy group runs to the earliest position at or after the heading
    end where one of the lookahead alternatives matches;
  - the bullet regexes `- (As a.*?)(?:\n|$)` and `- (.*?)(?:\n|$)` are
    left-to-right non-overlapping scans: each occurrence of the trigger
    captures from just after the two-character bullet marker to the end
    of the line, and scanning resumes after the consumed newline.

Note that the PRD patterns write the end-of-text alternative as a
double backslash before `Z` inside a raw string, which the regex engine
reads as a literal backslash followed by `Z`, not as the end-of-input
anchor; the embedding keeps that literal two-character terminator.
The API-doc patterns use the dollar anchor, which matches at end of
input and also just before a final trailing newline.
-/

namespace PMAssistant

abbrev Text := List Char

/-- Whitespace characters stripped by the Python `str.strip()` calls of the
source (the forms that can occur in its texts). -/
def isPySpace (c : Char) : Bool :=
  c = ' ' || c = '\t' || c = '\n' || c = '\r' || c = '\x0b' || c = '\x0c'

/-- Python `s.strip()`: remove leading and trailing whitespace. -/
def pyStrip (s : Text) : Text :=
  ((s.dropWhile isPySpace).reverse.dropWhile isPySpace).reverse

/-- First index at which `pat` occurs in the given suffix, counting from `i`. -/
def findIdxAux (pat : Text) : Text → Nat → Option Nat
  | [], i => if pat.isPrefixOf ([] : Text) then some i else none
  | c :: rest, i =>
    if pat.isPrefixOf (c :: rest) then some i else findIdxAux pat rest (i + 1)

/-- First index at or after `s` at which `pat` occurs in `t`. -/
def findIdxFrom (t pat : Text) (s : Nat) : Option Nat :=
  (findIdxAux pat (t.drop s) 0).map (fun r => r + s)

/-- The half-open slice `t[a:b]` of Python. -/
def slice (t : Text) (a b : Nat) : Text :=
  (t.drop a).take (b - a)

/-- Semantics of `re.search(HEADING ++ lazy group ++ lookahead, t, DOTALL)`
where the lookahead has no dollar alternative (the PRD patterns): the group
runs from the end of the leftmost heading occurrence to the earliest
occurrence of a terminator literal; with no terminator there is no match. -/
def searchBlockNoDollar (t heading : Text) (terms : List Text) : Option Text :=
  match findIdxFrom t heading 0 with
  | none => none
  | some p =>
    match terms.filterMap (fun tm => findIdxFrom t tm (p + heading.length)) with
    | [] => none
    | q :: qs => some (slice t (p + heading.length) (qs.foldl Nat.min q))

/-- Earliest position at or after `e` where the dollar anchor matches
(without `re.MULTILINE`): just before a final trailing newline, else at the
end of the text. -/
def dollarIdx (t : Text) (e : Nat) : Nat :=
  if t.getLast? = some '\n' ∧ e < t.length then t.length - 1 else t.length

/-- Semantics of the API-doc section patterns, whose lookahead carries a
dollar alternative and therefore always succeeds once the heading is found. -/
def searchBlockDollar (t heading : Text) (terms : List Text) : Option Text :=
  match findIdxFrom t heading 0 with
  | none => none
  | some p =>
    some (slice t (p + heading.length)
      ((terms.filterMap (fun tm => findIdxFrom t tm (p + heading.length))).foldl
        Nat.min (dollarIdx t (p + heading.length))))

/-- The part of `s` before its first newline. -/
def restOfLine (s : Text) : Text := s.takeWhile (fun c => c != '\n')

/-- The part of `s` after its first newline (empty when there is none). -/
def afterLine (s : Text) : Text := (s.dropWhile (fun c => c != '\n')).drop 1

/-- Left-to-right non-overlapping scan of `re.findall` for the bullet
patterns: at each occurrence of `trigger` the capture starts after the
two-character bullet marker and runs to the end of the line; scanning
resumes past the consumed newline. Fuel is the length of the text. -/
def findallBulletAux (trigger : Text) : Nat → Text → List Text
  | 0, _ => []
  | fuel + 1, s =>
    match s with
    | [] => []
    | c :: rest =>
      if trigger.isPrefixOf (c :: rest) then
        restOfLine (rest.drop 1) ::
          findallBulletAux trigger fuel (afterLine (rest.drop 1))
      else
        findallBulletAux trigger fuel rest

/-- `re.findall` of a bullet pattern over `s`. -/
def findallBullet (trigger : Text) (s : Text) : List Text :=
  findallBulletAux trigger s.length s

/- Heading literals and lookahead terminator literals, byte for byte as in
the regex raw strings of `src/backend/main.py`. -/

def hUserStories : Text := "## 👤 User Stories".data

def hSuccessMetrics : Text := "## 📊 Success Metrics".data

def hTimeline : Text := "## ⏱️ Timeline\n".data

def hRisks : Text := "## ⚠️ Risks".data

/-- Terminators of the user-story and metrics patterns: `## ` (with a
space), `---`, and the literal backslash-Z produced by the doubled
backslash in the raw string. -/
def stTerms : List Text := ["## ".data, "---".data, "\\Z".data]

/-- Terminators of the timeline and risks patterns: `##` without a space,
`---`, and the literal backslash-Z. -/
def tlTerms : List Text := ["##".data, "---".data, "\\Z".data]

def prdUserStoriesBlock (t : Text) : Option Text :=
  searchBlockNoDollar t hUserStories stTerms

def prdSuccessMetricsBlock (t : Text) : Option Text :=
  searchBlockNoDollar t hSuccessMetrics stTerms

def prdTimelineBlock (t : Text) : Option Text :=
  searchBlockNoDollar t hTimeline tlTerms

def prdRisksBlock (t : Text) : Option Text :=
  searchBlockNoDollar t hRisks tlTerms

/-- Trigger of `re.findall(r'- (As a.*?)(?:\n|$)', ...)`. -/
def bulletAsA : Text := "- As a".data

/-- Trigger of `re.findall(r'- (.*?)(?:\n|$)', ...)`. -/
def bulletAny : Text := "- ".data

/-- `user_stories = [s.strip() for s in stories if s.strip()]` over the
captures of the story pattern on the located block; empty when the block
regex does not match. -/
def extractUserStories (t : Text) : List Text :=
  match prdUserStoriesBlock t with
  | none => []
  | some b => ((findallBullet bulletAsA b).map pyStrip).filter (fun s => s ≠ [])

def extractSuccessMetrics (t : Text) : List Text :=
  match prdSuccessMetricsBlock t with
  | none => []
  | some b => ((findallBullet bulletAny b).map pyStrip).filter (fun s => s ≠ [])

def extractRisks (t : Text) : List Text :=
  match prdRisksBlock t with
  | none => []
  | some b => ((findallBullet bulletAny b).map pyStrip).filter (fun s => s ≠ [])

structure PRDResponse where
  prd_document : Text
  user_stories : List Text
  success_metrics : List Text
  timeline : Text
  risks : List Text
deriving DecidableEq, Repr

def defaultStories : List Text :=
  ["As a user, I want this feature so I can achieve my goals".data]

def defaultMetrics : List Text :=
  ["Adoption rate".data, "User engagement".data, "Time saved".data]

def defaultRisks : List Text :=
  ["Technical complexity".data, "User adoption".data, "Timeline risk".data]

def defaultTimeline : Text := "2-4 weeks".data

/-- The parse-and-assemble body of `generate_prd` on a raw completion
text: section extraction with the fallbacks and the `[:5]` truncations of
the `PRDResponse(...)` construction. -/
def assemblePRD (response_text : Text) : PRDResponse :=
  let user_stories := extractUserStories response_text
  let success_metrics := extractSuccessMetrics response_text
  let timeline :=
    match prdTimelineBlock response_text with
    | none => defaultTimeline
    | some b => pyStrip b
  let risks := extractRisks response_text
  { prd_document := response_text
    user_stories := if user_stories = [] then defaultStories else user_stories.take 5
    success_metrics :=
      if success_metrics = [] then defaultMetrics else success_metrics.take 5
    timeline := timeline
    risks := if risks = [] then defaultRisks else risks.take 5 }

/- API-doc pipeline. -/

structure CodeExample where
  language : Text
  code : Text
deriving DecidableEq, Repr

structure APIDocResponse where
  openapi_spec : Text
  markdown_docs : Text
  code_examples : List CodeExample
deriving DecidableEq, Repr

def hMarkdown : Text := "## 📚 API Documentation".data

def hOpenapi : Text := "## 🔗 OpenAPI Spec\n".data

def hCodeExamples : Text := "## 💻 Code Examples\n".data

/-- `re.search(r'## 📚 API Documentation.*?\n(.*?)(?=## 🔗|---SEPARATOR---|$)',
t, DOTALL)`: the lazy part before the newline stops at the first newline
after the heading; the group then runs to the earliest of the two literals
or the dollar anchor. -/
def markdownBlock (t : Text) : Option Text :=
  match findIdxFrom t hMarkdown 0 with
  | none => none
  | some p =>
    match findIdxFrom t ['\n'] (p + hMarkdown.length) with
    | none => none
    | some nl =>
      some (slice t (nl + 1)
        ((["## 🔗".data, "---SEPARATOR---".data].filterMap
            (fun tm => findIdxFrom t tm (nl + 1))).foldl
          Nat.min (dollarIdx t (nl + 1))))

def openapiBlock (t : Text) : Option Text :=
  searchBlockDollar t hOpenapi ["## 💻".data, "---SEPARATOR---".data]

def codeExamplesBlock (t : Text) : Option Text :=
  searchBlockDollar t hCodeExamples []

def defaultOpenapi : Text :=
  "\x7b\"openapi\": \"3.0.0\", \"info\": \x7b\"title\": \"API\"\x7d\x7d".data

def defaultMarkdown : Text :=
  "# API Documentation\n\nAPI endpoints and usage information.".data

/-- The parse-and-assemble body of `generate_api_docs` on a raw completion
text: the three block extractions, the positional slicing of the code
examples, and the fallbacks of the `APIDocResponse(...)` construction. -/
def assembleAPIDoc (language : Text) (response_text : Text) : APIDocResponse :=
  let markdown_docs :=
    match markdownBlock response_text with
    | none => ([] : Text)
    | some b => pyStrip b
  let openapi_spec :=
    match openapiBlock response_text with
    | none => ([] : Text)
    | some b => pyStrip b
  let code_examples :=
    match codeExamplesBlock response_text with
    | none => ([] : List CodeExample)
    | some b =>
      [⟨language, b.take 500⟩,
       ⟨"JavaScript".data, if 500 < b.length then (b.drop 500).take 500 else b⟩]
  { openapi_spec := if openapi_spec = [] then defaultOpenapi else openapi_spec
    markdown_docs := if markdown_docs = [] then defaultMarkdown else markdown_docs
    code_examples :=
      if code_examples = [] then [⟨language, "# Example usage".data⟩]
      else code_examples }

/- Endpoints: validation, then the upstream completion call (modelled as an
`Except` input: a raised exception or the returned text), then assembly. -/

structure PRDRequest where
  feature_idea : Text
  target_audience : Text
  problem_statement : Text
deriving DecidableEq, Repr

structure APIDocRequest where
  code : Text
  language : Text
  project_name : Text
deriving DecidableEq, Repr

inductive HTTPResult (α : Type) where
  | ok (body : α)
  | httpError (status : Nat) (detail : Text)
deriving DecidableEq, Repr

/-- `POST /api/generate-prd`: 400 when the stripped `feature_idea` is
empty; 500 carrying the exception text when the upstream call raises;
otherwise the assembled response. -/
def generate_prd (request : PRDRequest) (upstream : Except Text Text) :
    HTTPResult PRDResponse :=
  if pyStrip request.feature_idea = [] then
    .httpError 400 ("Feature idea cannot be empty".data)
  else
    match upstream with
    | .error e => .httpError 500 ("Error generating PRD: ".data ++ e)
    | .ok t => .ok (assemblePRD t)

/-- `POST /api/generate-api-docs`: 400 when the stripped `code` is empty;
500 carrying the exception text when the upstream call raises; otherwise
the assembled response. -/
def generate_api_docs (request : APIDocRequest) (upstream : Except Text Text) :
    HTTPResult APIDocResponse :=
  if pyStrip request.code = [] then
    .httpError 400 ("Code cannot be empty".data)
  else
    match upstream with
    | .error e => .httpError 500 ("Error generating API docs: ".data ++ e)
    | .ok t => .ok (assembleAPIDoc request.language t)

/-- HTTP status of a result. -/
def statusOf {α : Type} : HTTPResult α → Nat
  | .ok _ => 200
  | .httpError s _ => s

/- Equation lemmas exposing the assembled fields. -/

theorem assemblePRD_def (t : Text) :
    assemblePRD t =
      { prd_document := t
        user_stories :=
          if extractUserStories t = [] then defaultStories
          else (extractUserStories t).take 5
        success_metrics :=
          if extractSuccessMetrics t = [] then defaultMetrics
          else (extractSuccessMetrics t).take 5
        timeline :=
          match prdTimelineBlock t with
          | none => defaultTimeline
          | some b => pyStrip b
        risks :=
          if extractRisks t = [] then defaultRisks else (extractRisks t).take 5 } :=
  rfl

theorem assembleAPIDoc_def (lang t : Text) :
    assembleAPIDoc lang t =
      { openapi_spec :=
          if (match openapiBlock t with
              | none => ([] : Text)
              | some b => pyStrip b) = [] then defaultOpenapi
          else (match openapiBlock t with
                | none => ([] : Text)
                | some b => pyStrip b)
        markdown_docs :=
          if (match markdownBlock t with
              | none => ([] : Text)
              | some b => pyStrip b) = [] then defaultMarkdown
          else (match markdownBlock t with
                | none => ([] : Text)
                | some b => pyStrip b)
        code_examples :=
          if (match codeExamplesBlock t with
              | none => ([] : List CodeExample)
              | some b =>
                [⟨lang, b.take 500⟩,
                 ⟨"JavaScript".data,
                  if 500 < b.length then (b.drop 500).take 500 else b⟩]) = []
          then [⟨lang, "# Example usage".data⟩]
          else (match codeExamplesBlock t with
                | none => ([] : List CodeExample)
                | some b =>
                  [⟨lang, b.take 500⟩,
                   ⟨"JavaScript".data,
                    if 500 < b.length then (b.drop 500).take 500 else b⟩]) } :=
  rfl

theorem take_five_ne_nil {α : Type} {l : List α} (h : l ≠ []) : l.take 5 ≠ [] := by
  cases l with
  | nil => exact absurd rfl h
  | cons a as => simp

/- Concrete completion texts used by the claim instances. -/

/-- Timeline heading whose block is blank: the stripped group is assigned
to the timeline field unconditionally. -/
def tBlankTimeline : Text := "## ⏱️ Timeline\n## ⚠️ Risks\n- R\n---".data

/-- A user-story section that is the last content of the reply, with no
later heading marker or separator. -/
def tTrailStories : Text :=
  "## 👤 User Stories\n- As a dev, I want tests so that bugs are caught".data

/-- The same reply with a literal backslash-Z token appended. -/
def tTrailStoriesZ : Text :=
  "## 👤 User Stories\n- As a dev, I want tests so that bugs are caught\\Z".data

/-- A reply whose user-story heading lacks the emoji decoration. -/
def tPlainHeading : Text :=
  "## User Stories\n- As a writer, I want clarity so that readers follow\n## 📊 Success Metrics\n- m\n---".data

/-- A reply whose only story trigger occurs in the middle of a line. -/
def tMidline : Text :=
  "## 👤 User Stories\nnote - As a hacker, I want chaos\n## 📊 Success Metrics\n- m\n---".data

/-- The user-story block of `tMidline`. -/
def bMidline : Text := "\nnote - As a hacker, I want chaos\n".data

/-- The example reply of the specification. -/
def tSpecExample : Text :=
  "## 👤 User Stories\n- As a tester, I want coverage so that bugs are caught\n- As a user, I want speed so that I save time\n## 📊 Success Metrics\n- Metric\n---".data

/-- The user-story block of `tSpecExample`. -/
def bSpecExample : Text :=
  "\n- As a tester, I want coverage so that bugs are caught\n- As a user, I want speed so that I save time\n".data

/-- A reply with six stories, six metrics and six risks. -/
def tSixEach : Text :=
  "## 👤 User Stories\n- As a u1, a\n- As a u2, b\n- As a u3, c\n- As a u4, d\n- As a u5, e\n- As a u6, f\n## 📊 Success Metrics\n- m1\n- m2\n- m3\n- m4\n- m5\n- m6\n## ⚠️ Risks\n- r1\n- r2\n- r3\n- r4\n- r5\n- r6\n---".data

/-- A reply whose code-example block is exactly 400 characters long. -/
def tBlock400 : Text := "## 💻 Code Examples\n".data ++ List.replicate 400 'x'

/-- A timeline section that is the last content of the reply. -/
def tTrailTimeline : Text := "## ⏱️ Timeline\n3 weeks".data

/-- The same timeline section followed by a later heading. -/
def tBoundedTimeline : Text :=
  "## ⏱️ Timeline\n3 weeks\n## ⚠️ Risks\n- R1\n---".data

/-- A reply holding only a markdown block of whitespace, with no OpenAPI
heading at all. -/
def tBlankMarkdownOnly : Text := "## 📚 API Documentation\n  \n".data

/-- A reply holding only an OpenAPI block of whitespace, with no markdown
heading at all. -/
def tBlankOpenapiOnly : Text := "## 🔗 OpenAPI Spec\n \n".data

def reqPRD : PRDRequest := ⟨"Dark mode".data, "developers".data, "".data⟩

def reqAPI : APIDocRequest := ⟨"def f(): pass".data, "Python".data, "My API".data⟩

/-- The lines of a text, split at newlines. -/
def linesOf : Text → List Text
  | [] => [[]]
  | c :: rest =>
    match linesOf rest with
    | [] => [[]]
    | l :: ls => if c = '\n' then [] :: l :: ls else (c :: l) :: ls

/-- The user-story extraction in the words of claim C4: those lines of the
block that begin with a bullet marker followed by the literal text As a,
each trimmed after the marker, empty results dropped, order preserved. -/
def claimedUserStories (b : Text) : List Text :=
  (((linesOf b).filter (fun l => bulletAsA.isPrefixOf l)).map
    (fun l => pyStrip (l.drop 2))).filter (fun s => s ≠ [])

set_option maxRecDepth 40000

/-- C1: counterexample. The claim says every field of the assembled
response is non-empty. On the empty completion text `prd_document`, which
is the raw text itself and has no fallback, is empty; and on a reply whose
Timeline block is blank the stripped group is assigned verbatim, so
`timeline` is the empty string. -/
theorem C1_counterexample :
    (assemblePRD []).prd_document = [] ∧
    (assemblePRD tBlankTimeline).timeline = [] := by decide

/-- C1 (amended): for every raw completion text the list fields of the PRD
response and every field of the API-doc response are non-empty, the
fallbacks guaranteeing this; `prd_document` is the raw text verbatim and
`timeline` the stripped block, either of which can be empty. -/
theorem C1_fields_nonempty (t lang : Text) :
    (assemblePRD t).user_stories ≠ [] ∧
    (assemblePRD t).success_metrics ≠ [] ∧
    (assemblePRD t).risks ≠ [] ∧
    (assembleAPIDoc lang t).openapi_spec ≠ [] ∧
    (assembleAPIDoc lang t).markdown_docs ≠ [] ∧
    (assembleAPIDoc lang t).code_examples ≠ [] := by
  rw [assemblePRD_def, assembleAPIDoc_def]
  refine ⟨?_, ?_, ?_, ?_, ?_, ?_⟩
  · by_cases h : extractUserStories t = []
    · simp [h, defaultStories]
    · simp [h, take_five_ne_nil h]
  · by_cases h : extractSuccessMetrics t = []
    · simp [h, defaultMetrics]
    · simp [h, take_five_ne_nil h]
  · by_cases h : extractRisks t = []
    · simp [h, defaultRisks]
    · simp [h, take_five_ne_nil h]
  · by_cases h : (match openapiBlock t with
      | none => ([] : Text)
      | some b => pyStrip b) = [] <;> simp [h, defaultOpenapi]
  · by_cases h : (match markdownBlock t with
      | none => ([] : Text)
      | some b => pyStrip b) = [] <;> simp [h, defaultMarkdown]
  · by_cases h : (match codeExamplesBlock t with
      | none => ([] : List CodeExample)
      | some b =>
        [⟨lang, b.take 500⟩,
         ⟨"JavaScript".data,
          if 500 < b.length then (b.drop 500).take 500 else b⟩]) = [] <;>
      simp [h]

/-- C2: the code at the failing input. The PRD patterns write the
end-of-text alternative as a doubled backslash before Z inside a raw
string, which matches a literal backslash-Z rather than end of input, so a
section that is the last content of the reply is not extracted and its
field falls back; appending the two literal characters backslash-Z makes
the very same section extract. The claim says a final section is still
extracted, its block ending at end of text. -/
theorem C2_trailing_section_dropped :
    prdUserStoriesBlock tTrailStories = none ∧
    (assemblePRD tTrailStories).user_stories = defaultStories ∧
    prdUserStoriesBlock tTrailStoriesZ =
      some ("\n- As a dev, I want tests so that bugs are caught".data) ∧
    (assemblePRD tTrailStoriesZ).user_stories =
      ["As a dev, I want tests so that bugs are caught".data] := by decide

/-- C3: counterexample. The claim says a heading written without the
decorative emoji is still recognized. In `tPlainHeading` the undecorated
heading is present at index 0, yet the story extraction falls back to the
canned default: matching is on the exact decorated byte sequence. -/
theorem C3_counterexample :
    findIdxFrom tPlainHeading ("## User Stories".data) 0 = some 0 ∧
    (assemblePRD tPlainHeading).user_stories = defaultStories := by decide

/-- C3 (amended): section headings are matched by the exact decorated
literal, emoji included; whenever the decorated literal is absent from the
reply the user-story field is the canned fallback, however the undecorated
words may appear. -/
theorem C3_decorated_literal_required (t : Text)
    (h : findIdxFrom t hUserStories 0 = none) :
    (assemblePRD t).user_stories = defaultStories := by
  have hb : prdUserStoriesBlock t = none := by
    unfold prdUserStoriesBlock searchBlockNoDollar
    rw [h]
  have he : extractUserStories t = [] := by
    unfold extractUserStories
    rw [hb]
  rw [assemblePRD_def]
  simp [he]

/-- C3 witness: the amended theorem applied to `tPlainHeading`. -/
theorem C3_witness :
    (assemblePRD tPlainHeading).user_stories = defaultStories :=
  C3_decorated_literal_required tPlainHeading (by decide)

/-- C4: counterexample. The claim says `user_stories` is exactly the lines
of the block beginning with a bullet marker followed by As a. In
`tMidline` no line of the block begins with the marker, so the claim
predicts no extracted entry (hence the fallback), yet the field holds the
capture of a mid-line occurrence. -/
theorem C4_counterexample :
    prdUserStoriesBlock tMidline = some bMidline ∧
    claimedUserStories bMidline = [] ∧
    (assemblePRD tMidline).user_stories = ["As a hacker, I want chaos".data] := by
  decide

/-- C4 (amended): `user_stories` is exactly the captures of a left-to-right
non-overlapping scan of the block for a bullet marker immediately followed
by the literal case-sensitive text As a — occurring anywhere in a line,
not only at its start — each capture running to the end of its line,
trimmed, empty results dropped, order preserved, then subjected to the
fallback and truncation of the assembler. -/
theorem C4_scan_captures (t b : Text) (h : prdUserStoriesBlock t = some b) :
    (assemblePRD t).user_stories =
      if ((findallBullet bulletAsA b).map pyStrip).filter (fun s => s ≠ []) = []
      then defaultStories
      else ((((findallBullet bulletAsA b).map pyStrip).filter
              (fun s => s ≠ [])).take 5) := by
  have he : extractUserStories t =
      ((findallBullet bulletAsA b).map pyStrip).filter (fun s => s ≠ []) := by
    unfold extractUserStories
    rw [h]
  rw [assemblePRD_def]
  simp only [he]

/-- C4 witness: the amended theorem applied to the example reply of the
specification, yielding exactly the two stories the spec states. -/
theorem C4_witness :
    (assemblePRD tSpecExample).user_stories =
      ["As a tester, I want coverage so that bugs are caught".data,
       "As a user, I want speed so that I save time".data] := by
  rw [C4_scan_captures tSpecExample bSpecExample (by decide)]
  decide

/-- C5: the list fields of the PRD response never exceed five entries, and
whenever extraction yields entries the field is the first five of them in
source order (the fallback branch is taken only on an empty extraction). -/
theorem C5_truncation (t : Text) :
    (assemblePRD t).user_stories.length ≤ 5 ∧
    (assemblePRD t).success_metrics.length ≤ 5 ∧
    (assemblePRD t).risks.length ≤ 5 ∧
    (extractUserStories t ≠ [] →
      (assemblePRD t).user_stories = (extractUserStories t).take 5) ∧
    (extractSuccessMetrics t ≠ [] →
      (assemblePRD t).success_metrics = (extractSuccessMetrics t).take 5) ∧
    (extractRisks t ≠ [] → (assemblePRD t).risks = (extractRisks t).take 5) := by
  rw [assemblePRD_def]
  refine ⟨?_, ?_, ?_, ?_, ?_, ?_⟩
  · by_cases h : extractUserStories t = [] <;>
      simp [h, defaultStories, List.length_take]
  · by_cases h : extractSuccessMetrics t = [] <;>
      simp [h, defaultMetrics, List.length_take]
  · by_cases h : extractRisks t = [] <;>
      simp [h, defaultRisks, List.length_take]
  · intro h
    simp [h]
  · intro h
    simp [h]
  · intro h
    simp [h]

/-- C5 witness: on a reply with six stories, six metrics and six risks,
each field is the first five in source order. -/
theorem C5_witness :
    extractUserStories tSixEach ≠ [] ∧
    (extractUserStories tSixEach).length = 6 ∧
    (assemblePRD tSixEach).user_stories = (extractUserStories tSixEach).take 5 ∧
    (assemblePRD tSixEach).success_metrics =
      ["m1".data, "m2".data, "m3".data, "m4".data, "m5".data] ∧
    (assemblePRD tSixEach).risks =
      ["r1".data, "r2".data, "r3".data, "r4".data, "r5".data] :=
  ⟨by decide, by decide, (C5_truncation tSixEach).2.2.2.1 (by decide),
   by decide, by decide⟩

/-- C6: whenever the code-examples block is found, `code_examples` has
exactly two entries: the requested language with the first 500 characters
of the block, and JavaScript with characters 500 to 999 when the block is
longer than 500 characters and with the whole block otherwise. -/
theorem C6_code_examples_slices (lang t b : Text)
    (h : codeExamplesBlock t = some b) :
    (assembleAPIDoc lang t).code_examples =
      [⟨lang, b.take 500⟩,
       ⟨"JavaScript".data,
        if 500 < b.length then (b.drop 500).take 500 else b⟩] := by
  rw [assembleAPIDoc_def]
  simp [h]

/-- C6 witness: on a block of exactly 400 characters the second entry
holds the full 400-character block. -/
theorem C6_witness :
    (assembleAPIDoc ("Python".data) tBlock400).code_examples =
      [⟨"Python".data, List.replicate 400 'x'⟩,
       ⟨"JavaScript".data, List.replicate 400 'x'⟩] := by
  rw [C6_code_examples_slices ("Python".data) tBlock400
    (List.replicate 400 'x') (by decide)]
  decide

/-- C7: the code at the failing input. With no Timeline heading the field
is the literal 2-4 weeks, and with the heading followed by a later heading
the stripped block is taken verbatim; but a timeline section that is the
last content of the reply is not matched at all — the end-of-text
alternative of the pattern is the literal backslash-Z — so the field is
the fallback even though the heading is present, where the claim says the
trimmed block body is taken. -/
theorem C7_trailing_timeline_dropped :
    prdTimelineBlock tTrailTimeline = none ∧
    (assemblePRD tTrailTimeline).timeline = defaultTimeline ∧
    prdTimelineBlock tBoundedTimeline = some ("3 weeks\n".data) ∧
    (assemblePRD tBoundedTimeline).timeline = "3 weeks".data := by decide

/-- C8: an endpoint fails with status 400 exactly when its required text
field strips to empty, and the status is unaffected by every other request
field (a whitespace-only audience, problem statement, language or project
name is accepted). -/
theorem C8_validation (fi ta ps ta2 ps2 c lg pn lg2 pn2 : Text)
    (u1 u2 : Except Text Text) :
    (statusOf (generate_prd ⟨fi, ta, ps⟩ u1) = 400 ↔ pyStrip fi = []) ∧
    (statusOf (generate_api_docs ⟨c, lg, pn⟩ u2) = 400 ↔ pyStrip c = []) ∧
    statusOf (generate_prd ⟨fi, ta, ps⟩ u1) =
      statusOf (generate_prd ⟨fi, ta2, ps2⟩ u1) ∧
    statusOf (generate_api_docs ⟨c, lg, pn⟩ u2) =
      statusOf (generate_api_docs ⟨c, lg2, pn2⟩ u2) := by
  unfold generate_prd generate_api_docs
  by_cases h1 : pyStrip fi = [] <;> by_cases h2 : pyStrip c = [] <;>
    cases u1 <;> cases u2 <;> simp [h1, h2, statusOf]

/-- C9: once validation passes, an upstream failure of any kind yields
status 500 with the underlying message appended to the detail, and for
every completion text, however malformed, extraction and assembly complete
and a 200 response is produced. -/
theorem C9_upstream_and_totality (r1 : PRDRequest) (r2 : APIDocRequest)
    (e1 e2 t1 t2 : Text)
    (h1 : pyStrip r1.feature_idea ≠ []) (h2 : pyStrip r2.code ≠ []) :
    generate_prd r1 (Except.error e1) =
      HTTPResult.httpError 500 ("Error generating PRD: ".data ++ e1) ∧
    generate_api_docs r2 (Except.error e2) =
      HTTPResult.httpError 500 ("Error generating API docs: ".data ++ e2) ∧
    generate_prd r1 (Except.ok t1) = HTTPResult.ok (assemblePRD t1) ∧
    generate_api_docs r2 (Except.ok t2) =
      HTTPResult.ok (assembleAPIDoc r2.language t2) := by
  unfold generate_prd generate_api_docs
  simp [h1, h2]

/-- C9 witness: the theorem at concrete requests, upstream errors and a
malformed (empty) completion text. -/
theorem C9_witness :
    generate_prd reqPRD (Except.error ("boom".data)) =
      HTTPResult.httpError 500 ("Error generating PRD: boom".data) ∧
    generate_api_docs reqAPI (Except.error ("quota".data)) =
      HTTPResult.httpError 500 ("Error generating API docs: quota".data) ∧
    generate_prd reqPRD (Except.ok []) = HTTPResult.ok (assemblePRD []) ∧
    generate_api_docs reqAPI (Except.ok []) =
      HTTPResult.ok (assembleAPIDoc ("Python".data) []) := by
  obtain ⟨a, b, c, d⟩ :=
    C9_upstream_and_totality reqPRD reqAPI ("boom".data) ("quota".data) [] []
      (by decide) (by decide)
  refine ⟨?_, ?_, c, d⟩
  · rw [a]
    decide
  · rw [b]
    decide

/-- C10: in the API-doc pipeline the canned defaults are substituted not
only when a heading is absent but also when the located block strips to
the empty string; the two fields are independent, each implication holding
on its own for every text. -/
theorem C10_blank_block_defaults (lang t : Text) :
    (∀ b, openapiBlock t = some b → pyStrip b = [] →
      (assembleAPIDoc lang t).openapi_spec = defaultOpenapi) ∧
    (∀ b, markdownBlock t = some b → pyStrip b = [] →
      (assembleAPIDoc lang t).markdown_docs = defaultMarkdown) := by
  constructor
  · intro b hb hs
    rw [assembleAPIDoc_def]
    simp [hb, hs]
  · intro b hb hs
    rw [assembleAPIDoc_def]
    simp [hb, hs]

/-- C10 witness: the one-sided cases. A reply whose markdown block alone
is present and whitespace-only carries the markdown default, and a reply
whose OpenAPI block alone is present and whitespace-only carries the
OpenAPI default. -/
theorem C10_witness :
    (assembleAPIDoc ("Python".data) tBlankMarkdownOnly).markdown_docs =
      defaultMarkdown ∧
    (assembleAPIDoc ("Python".data) tBlankOpenapiOnly).openapi_spec =
      defaultOpenapi :=
  ⟨(C10_blank_block_defaults ("Python".data) tBlankMarkdownOnly).2 ("  ".data)
      (by decide) (by decide),
   (C10_blank_block_defaults ("Python".data) tBlankOpenapiOnly).1 (" ".data)
      (by decide) (by decide)⟩

end PMAssistant
